import Mathlib

/-
Verification of the jig_mcp adapter's validation and request-shaping layer.

The embedding mirrors `src/main.py` (tool functions) and `src/api_client.py`
(transport client).  Python `dict[str, Any]` values are modelled by the
inductive `JVal` (JSON-like values with association-list objects), query
parameter values by `PVal`, and an outgoing HTTP request by `Request`.
A tool body that raises `ValueError` before calling the transport is
modelled as `Except.error msg`; `Except.ok r` means the HTTP request `r`
is issued.  Python truthiness of strings (empty string falsy) and dicts
(empty dict falsy), and `is not None` tests, are modelled explicitly at
each use site, following the source line by line.
-/

set_option autoImplicit false
set_option maxRecDepth 8192

/-- JSON-like values, modelling Python `Any` payloads (`dict[str, Any]`
objects become association lists). -/
inductive JVal where
  | null : JVal
  | bool : Bool → JVal
  | int : Int → JVal
  | str : String → JVal
  | arr : List JVal → JVal
  | obj : List (String × JVal) → JVal

/-- Query-parameter values (Python int, bool or str values placed in the
`params` dict of a GET request). -/
inductive PVal where
  | int : Int → PVal
  | bool : Bool → PVal
  | str : String → PVal
deriving DecidableEq

/-- One outgoing HTTP request as handed to `client.request(method, endpoint,
params, json_data)` in `src/main.py`. -/
structure Request where
  method : String
  endpoint : String
  params : Option (List (String × PVal))
  body : Option JVal

/-- First-match lookup in an association-list object: Python `d[k]` /
`k in d` (dict keys are unique, so first match is the match). -/
def jlookup : List (String × JVal) → String → Option JVal
  | [], _ => none
  | (k', v) :: rest, k => if k' = k then some v else jlookup rest k

/-- Python `k in d` for a JSON object. -/
def jhasKey (kvs : List (String × JVal)) (k : String) : Bool :=
  (jlookup kvs k).isSome

/-- Python `d[k]` on a key that is known to be present (defaults to `null`
on the never-taken absent branch). -/
def jget (kvs : List (String × JVal)) (k : String) : JVal :=
  (jlookup kvs k).getD JVal.null

/-- Python `v == s` between an arbitrary value and a string literal:
true exactly when `v` is that string (case-sensitive). -/
def jvalEqStr : JVal → String → Bool
  | JVal.str t, s => t == s
  | _, _ => false

/-- Python `v in ss` for a list of string literals `ss`. -/
def memStr (v : JVal) (ss : List String) : Bool :=
  ss.any (fun s => jvalEqStr v s)

/-- Python `", ".join(xs)`. -/
def joinComma : List String → String
  | [] => ""
  | [s] => s
  | s :: rest => s ++ ", " ++ joinComma rest

/-- `Except` result carries a request (ok) or a raised `ValueError` (error). -/
def isOkE {ε α : Type} : Except ε α → Bool
  | Except.ok _ => true
  | Except.error _ => false

/-- `required_action_fields` of `create_station` (main.py line 145). -/
def required_action_fields : List String := ["type", "actor", "prompt"]

/-- `valid_types` for station actions (main.py line 151). -/
def valid_station_types : List String := ["gather", "process", "execute"]

/-- `valid_actors` for station actions (main.py line 152). -/
def valid_actors : List String := ["agent", "human"]

/-- `valid_triggers` for workflow configs (main.py line 419). -/
def valid_triggers : List String := ["manual", "schedule", "event"]

/-- `valid_types` for workflow configs (main.py line 420). -/
def valid_workflow_types : List String := ["linear", "parallel", "conditional", "hybrid"]

/-- `if slug: data["slug"] = slug` — truthiness of an optional string
(absent or empty string is falsy, hence omitted). -/
def optTruthyStr (k : String) : Option String → List (String × JVal)
  | some s => if s = "" then [] else [(k, JVal.str s)]
  | none => []

/-- `if context: data["context"] = context` — truthiness of an optional dict
(absent or empty dict is falsy, hence omitted). -/
def optTruthyObj (k : String) : Option (List (String × JVal)) → List (String × JVal)
  | some d => if d.isEmpty then [] else [(k, JVal.obj d)]
  | none => []

/-- Request body built by `create_station` (main.py lines 161-174):
fixed fields in insertion order, then slug/context/output iff truthy. -/
def station_body (version name intent : String) (action : JVal) (is_active : Bool)
    (slug : Option String) (context output : Option (List (String × JVal))) :
    List (String × JVal) :=
  [("version", JVal.str version), ("name", JVal.str name), ("intent", JVal.str intent),
   ("action", action), ("is_active", JVal.bool is_active)]
    ++ optTruthyStr "slug" slug ++ optTruthyObj "context" context
    ++ optTruthyObj "output" output

/-- `create_station` (main.py lines 83-176): validates the `action` mapping
(required fields, then type/actor enumerations), then issues
`POST /api/stations` with the DSL body.  `Except.error` is the raised
`ValueError`; no request is issued in that case. -/
def create_station (name intent : String) (action : JVal)
    (context output : Option (List (String × JVal))) (slug : Option String)
    (version : String) (is_active : Bool) : Except String Request :=
  match action with
  | JVal.obj kvs =>
    if required_action_fields.filter (fun f => ! jhasKey kvs f) = [] then
      if memStr (jget kvs "type") valid_station_types then
        if memStr (jget kvs "actor") valid_actors then
          Except.ok ⟨"POST", "/api/stations", none,
            some (JVal.obj (station_body version name intent (JVal.obj kvs) is_active
              slug context output))⟩
        else Except.error ("action.actor must be one of: " ++ joinComma valid_actors)
      else Except.error ("action.type must be one of: " ++ joinComma valid_station_types)
    else
      Except.error ("action must have fields: "
        ++ joinComma (required_action_fields.filter (fun f => ! jhasKey kvs f)))
  | _ => Except.error "action must be a dictionary"

/-- Configuration of the lazily created `httpx.AsyncClient`
(api_client.py lines 41-48): base URL and the bearer secret placed in the
Authorization header. -/
structure HttpClientCfg where
  base_url : String
  auth_bearer : String

/-- `JigRunnerClient` (api_client.py lines 12-27): credential fields plus
the lazily initialised HTTP client (`self._client`). -/
structure JigRunnerClient where
  api_url : String
  supabase_url : String
  service_role_key : String
  _client : Option HttpClientCfg

/-- `JigRunnerClient.__init__` (api_client.py lines 15-27): stores the three
configuration strings unchecked and leaves `_client` unset.  It is a total
function: construction never raises. -/
def JigRunnerClient.init (api_url supabase_url service_role_key : String) :
    JigRunnerClient :=
  ⟨api_url, supabase_url, service_role_key, none⟩

/-- The `ValueError` message of `_get_client` (api_client.py lines 34-39). -/
def missing_env_message : String :=
  "Missing required environment variables:\n- JIG_RUNNER_SUPABASE_URL\n- JIG_RUNNER_SERVICE_ROLE_KEY\nMake sure they are configured in Smithery"

/-- `JigRunnerClient._get_client` (api_client.py lines 29-49): on first use
(no cached client) validates that both credential strings are non-empty
(Python truthiness of `str`) and raises otherwise; on success caches and
returns the configured HTTP client. -/
def JigRunnerClient._get_client (c : JigRunnerClient) :
    Except String (HttpClientCfg × JigRunnerClient) :=
  match c._client with
  | some cl => Except.ok (cl, c)
  | none =>
    if c.supabase_url = "" || c.service_role_key = "" then
      Except.error missing_env_message
    else
      Except.ok (⟨c.api_url, c.service_role_key⟩,
        ⟨c.api_url, c.supabase_url, c.service_role_key,
          some ⟨c.api_url, c.service_role_key⟩⟩)

/-- `JigRunnerClient.request` (api_client.py lines 51-67): obtains the lazy
client (which may raise the configuration `ValueError`), then performs one
HTTP request.  `Except.ok` carries the issued request and the updated
client; `Except.error` means the `ValueError` escaped before any network
call. -/
def JigRunnerClient.request (c : JigRunnerClient) (method endpoint : String)
    (params : Option (List (String × PVal))) (json_data : Option JVal) :
    Except String (Request × JigRunnerClient) :=
  match c._get_client with
  | Except.error e => Except.error e
  | Except.ok (_, c') => Except.ok (⟨method, endpoint, params, json_data⟩, c')

/-- `if x is not None: params[k] = x` for an optional boolean filter
(so `False` is still sent). -/
def optParamBool (k : String) : Option Bool → List (String × PVal)
  | some b => [(k, PVal.bool b)]
  | none => []

/-- `if x: params[k] = x` for an optional string filter (absent or empty
string is falsy, hence omitted). -/
def optParamStr (k : String) : Option String → List (String × PVal)
  | some s => if s = "" then [] else [(k, PVal.str s)]
  | none => []

/-- Query parameters assembled by `list_stations` (main.py lines 54-60):
limit/offset/include_archived always, then the optional filters. -/
def list_stations_params (limit offset : Int) (is_active : Option Bool)
    (include_archived : Bool) (action_type search : Option String) :
    List (String × PVal) :=
  [("limit", PVal.int limit), ("offset", PVal.int offset),
   ("include_archived", PVal.bool include_archived)]
    ++ optParamBool "is_active" is_active
    ++ optParamStr "action_type" action_type
    ++ optParamStr "search" search

/-- `list_stations` (main.py lines 29-62): a pure read-through issuing
`GET /api/stations` with the assembled parameters. -/
def list_stations (limit offset : Int) (is_active : Option Bool)
    (include_archived : Bool) (action_type search : Option String) : Request :=
  ⟨"GET", "/api/stations",
   some (list_stations_params limit offset is_active include_archived action_type search),
   none⟩

/-- Query parameters assembled by `list_connections` (main.py lines
800-806): limit/offset always, then type, is_active, search filters. -/
def list_connections_params (limit offset : Int) (type : Option String)
    (is_active : Option Bool) (search : Option String) : List (String × PVal) :=
  [("limit", PVal.int limit), ("offset", PVal.int offset)]
    ++ optParamStr "type" type
    ++ optParamBool "is_active" is_active
    ++ optParamStr "search" search

/-- `list_connections` (main.py lines 778-808): a pure read-through issuing
`GET /api/connections` with the assembled parameters. -/
def list_connections (limit offset : Int) (type : Option String)
    (is_active : Option Bool) (search : Option String) : Request :=
  ⟨"GET", "/api/connections",
   some (list_connections_params limit offset type is_active search),
   none⟩

/-- The per-entry validation loop over `action["stations"]` shared verbatim
by `create_workflow` (main.py lines 433-437) and `update_workflow` (lines
543-547): each entry must be a mapping carrying `name`, `id` and
`condition`; the first offending entry aborts with its zero-based index. -/
def checkStations : Nat → List JVal → Except String Unit
  | _, [] => Except.ok ()
  | i, JVal.obj e :: rest =>
    if jhasKey e "name" && jhasKey e "id" && jhasKey e "condition" then
      checkStations (i + 1) rest
    else
      Except.error ("action.stations[" ++ toString i
        ++ "] must have 'name', 'id', and 'condition' fields")
  | i, _ :: _ =>
    Except.error ("action.stations[" ++ toString i ++ "] must be a dictionary")

/-- A station entry that passes the loop body of `checkStations`. -/
def goodEntry : JVal → Bool
  | JVal.obj e => jhasKey e "name" && jhasKey e "id" && jhasKey e "condition"
  | _ => false

/-- Request body built by `create_workflow` (main.py lines 440-452). -/
def workflow_body (version name intent : String) (action : JVal)
    (slug : Option String) (context output : Option (List (String × JVal))) :
    List (String × JVal) :=
  [("version", JVal.str version), ("name", JVal.str name), ("intent", JVal.str intent),
   ("action", action)]
    ++ optTruthyStr "slug" slug ++ optTruthyObj "context" context
    ++ optTruthyObj "output" output

/-- `create_workflow` (main.py lines 351-454): requires `config` and
`stations` in `action`, a dict `config` carrying valid `trigger` and
`type`, a non-empty `stations` list whose entries pass `checkStations`,
then issues `POST /api/workflows`. -/
def create_workflow (name intent : String) (action : JVal) (slug : Option String)
    (version : String) (context output : Option (List (String × JVal))) :
    Except String Request :=
  match action with
  | JVal.obj kvs =>
    if jhasKey kvs "config" && jhasKey kvs "stations" then
      match jget kvs "config" with
      | JVal.obj c =>
        if jhasKey c "trigger" && jhasKey c "type" then
          if memStr (jget c "trigger") valid_triggers then
            if memStr (jget c "type") valid_workflow_types then
              match jget kvs "stations" with
              | JVal.arr xs =>
                if xs.isEmpty then Except.error "action.stations must be a non-empty array"
                else
                  match checkStations 0 xs with
                  | Except.error e => Except.error e
                  | Except.ok _ =>
                    Except.ok ⟨"POST", "/api/workflows", none,
                      some (JVal.obj (workflow_body version name intent (JVal.obj kvs)
                        slug context output))⟩
              | _ => Except.error "action.stations must be a non-empty array"
            else
              Except.error ("action.config.type must be one of: "
                ++ joinComma valid_workflow_types)
          else
            Except.error ("action.config.trigger must be one of: " ++ joinComma valid_triggers)
        else Except.error "action.config must have 'trigger' and 'type' fields"
      | _ => Except.error "action.config must be a dictionary"
    else Except.error "action must have 'config' and 'stations' fields"
  | _ => Except.error "action must be a dictionary"

/-- The `if field in d: if d[field] not in valids: raise` pattern used by the
update tools on enumerated sub-fields (main.py lines 251-259, 527-535). -/
def check_enum_field (d : List (String × JVal)) (field : String)
    (valids : List String) (msg : String) : Except String Unit :=
  match jlookup d field with
  | some v => if memStr v valids then Except.ok () else Except.error msg
  | none => Except.ok ()

/-- Validation applied by `update_station` to a supplied `action` mapping
(main.py lines 250-259): `type` and `actor` are checked only when present. -/
def check_update_station_action (kvs : List (String × JVal)) : Except String Unit :=
  match check_enum_field kvs "type" valid_station_types
      ("action.type must be one of: " ++ joinComma valid_station_types) with
  | Except.error e => Except.error e
  | Except.ok _ =>
    check_enum_field kvs "actor" valid_actors
      ("action.actor must be one of: " ++ joinComma valid_actors)

/-- `if x is not None: data[k] = x` for an optional string field. -/
def someStrField (k : String) : Option String → List (String × JVal)
  | some s => [(k, JVal.str s)]
  | none => []

/-- `if x is not None: data[k] = x` for an optional dict field. -/
def someObjField (k : String) : Option (List (String × JVal)) → List (String × JVal)
  | some d => [(k, JVal.obj d)]
  | none => []

/-- `if x is not None: data[k] = x` for an optional boolean field. -/
def someBoolField (k : String) : Option Bool → List (String × JVal)
  | some b => [(k, JVal.bool b)]
  | none => []

/-- The sparse patch body of `update_station` before `action` is appended
(main.py lines 228-243), in insertion order. -/
def update_station_base (name intent slug : Option String)
    (context output : Option (List (String × JVal))) (is_active archived : Option Bool) :
    List (String × JVal) :=
  someStrField "name" name ++ someStrField "intent" intent ++ someStrField "slug" slug
    ++ someObjField "context" context ++ someObjField "output" output
    ++ someBoolField "is_active" is_active ++ someBoolField "archived" archived

/-- `update_station` (main.py lines 180-263): builds a sparse patch of the
supplied fields, validates a supplied `action` only on the sub-fields it
carries, and issues `PUT /api/stations/{id}`. -/
def update_station (id : String) (name intent : Option String) (action : Option JVal)
    (context output : Option (List (String × JVal))) (slug : Option String)
    (is_active archived : Option Bool) : Except String Request :=
  match action with
  | none =>
    Except.ok ⟨"PUT", "/api/stations/" ++ id, none,
      some (JVal.obj (update_station_base name intent slug context output is_active archived))⟩
  | some (JVal.obj kvs) =>
    match check_update_station_action kvs with
    | Except.error e => Except.error e
    | Except.ok _ =>
      Except.ok ⟨"PUT", "/api/stations/" ++ id, none,
        some (JVal.obj (update_station_base name intent slug context output is_active archived
          ++ [("action", JVal.obj kvs)]))⟩
  | some _ => Except.error "action must be a dictionary"

/-- The config part of `update_workflow`'s action validation (main.py lines
521-535): `config` is checked only when present; it must then be a dict,
and `trigger`/`type` are checked only when present. -/
def check_update_wf_config (kvs : List (String × JVal)) : Except String Unit :=
  match jlookup kvs "config" with
  | none => Except.ok ()
  | some (JVal.obj c) =>
    match check_enum_field c "trigger" valid_triggers
        ("action.config.trigger must be one of: " ++ joinComma valid_triggers) with
    | Except.error e => Except.error e
    | Except.ok _ =>
      check_enum_field c "type" valid_workflow_types
        ("action.config.type must be one of: " ++ joinComma valid_workflow_types)
  | some _ => Except.error "action.config must be a dictionary"

/-- The stations part of `update_workflow`'s action validation (main.py
lines 538-547): `stations` is checked only when present; it must then be a
list — emptiness is NOT rejected here, unlike `create_workflow` — and its
entries run through the same `checkStations` loop. -/
def check_update_wf_stations (kvs : List (String × JVal)) : Except String Unit :=
  match jlookup kvs "stations" with
  | none => Except.ok ()
  | some (JVal.arr xs) => checkStations 0 xs
  | some _ => Except.error "action.stations must be an array"

/-- The sparse patch body of `update_workflow` before `action` is appended
(main.py lines 503-514), in insertion order. -/
def update_workflow_base (name intent slug : Option String)
    (context output : Option (List (String × JVal))) : List (String × JVal) :=
  someStrField "name" name ++ someStrField "intent" intent ++ someStrField "slug" slug
    ++ someObjField "context" context ++ someObjField "output" output

/-- `update_workflow` (main.py lines 458-551): builds a sparse patch,
validates a supplied `action` conditionally on the sub-fields present
(config part, then stations part), and issues `PUT /api/workflows/{id}`. -/
def update_workflow (id : String) (name intent : Option String) (action : Option JVal)
    (slug : Option String) (context output : Option (List (String × JVal))) :
    Except String Request :=
  match action with
  | none =>
    Except.ok ⟨"PUT", "/api/workflows/" ++ id, none,
      some (JVal.obj (update_workflow_base name intent slug context output))⟩
  | some (JVal.obj kvs) =>
    match check_update_wf_config kvs with
    | Except.error e => Except.error e
    | Except.ok _ =>
      match check_update_wf_stations kvs with
      | Except.error e => Except.error e
      | Except.ok _ =>
        Except.ok ⟨"PUT", "/api/workflows/" ++ id, none,
          some (JVal.obj (update_workflow_base name intent slug context output
            ++ [("action", JVal.obj kvs)]))⟩
  | some _ => Except.error "action must be a dictionary"

/-- Membership in the station type enumeration is exactly string equality
with one of the three literals. -/
theorem memStr_station_types (v : JVal) :
    memStr v valid_station_types = true
      ↔ (v = JVal.str "gather" ∨ v = JVal.str "process" ∨ v = JVal.str "execute") := by
  cases v <;> simp [memStr, jvalEqStr, valid_station_types]

/-- Membership in the actor enumeration is exactly string equality with one
of the two literals. -/
theorem memStr_actors (v : JVal) :
    memStr v valid_actors = true
      ↔ (v = JVal.str "agent" ∨ v = JVal.str "human") := by
  cases v <;> simp [memStr, jvalEqStr, valid_actors]

/-- An enumeration test on `jget` can only succeed when the key is present
(an absent key reads as `null`, which matches no string). -/
theorem memStr_present (d : List (String × JVal)) (k : String) (ss : List String)
    (h : memStr (jget d k) ss = true) : jhasKey d k = true := by
  cases hl : jlookup d k with
  | some v => simp [jhasKey, hl]
  | none =>
    rw [jget, hl] at h
    simp [memStr, jvalEqStr] at h

/-- A key/value pair sits in an `optParamBool` segment exactly when the
filter was supplied (with that boolean value, `false` included). -/
theorem mem_optParamBool (k k' : String) (v : PVal) (o : Option Bool) :
    (k', v) ∈ optParamBool k o ↔ (k' = k ∧ ∃ b, o = some b ∧ v = PVal.bool b) := by
  cases o <;> simp [optParamBool]

/-- A key/value pair sits in an `optParamStr` segment exactly when the
filter was supplied as a non-empty string. -/
theorem mem_optParamStr (k k' : String) (v : PVal) (o : Option String) :
    (k', v) ∈ optParamStr k o ↔ (k' = k ∧ ∃ s, o = some s ∧ s ≠ "" ∧ v = PVal.str s) := by
  cases o with
  | none => simp [optParamStr]
  | some s =>
    by_cases hs : s = "" <;> simp [optParamStr, hs]

/-- `checkStations`, started at counter `j`, fails on the first offending
entry — here at offset `i`, an object missing a required key — and reports
index `j + i` in its message. -/
theorem checkStations_error_at (xs : List JVal) (j i : Nat) (e : List (String × JVal))
    (hgood : ∀ k, k < i → goodEntry (xs.getD k JVal.null) = true)
    (hlen : i < xs.length)
    (hi : xs.getD i JVal.null = JVal.obj e)
    (hbad : (jhasKey e "name" && jhasKey e "id" && jhasKey e "condition") = false) :
    checkStations j xs
      = Except.error ("action.stations[" ++ toString (j + i)
          ++ "] must have 'name', 'id', and 'condition' fields") := by
  induction xs generalizing j i with
  | nil => simp at hlen
  | cons x rest ih =>
    cases i with
    | zero =>
      have hx : x = JVal.obj e := by simpa [List.getD] using hi
      subst hx
      simp [checkStations, hbad]
    | succ i' =>
      have hg0 : goodEntry x = true := by
        simpa [List.getD] using hgood 0 (Nat.succ_pos i')
      have harith : j + (i' + 1) = (j + 1) + i' := by omega
      rw [harith]
      cases x with
      | obj e' =>
        have hcond : (jhasKey e' "name" && jhasKey e' "id" && jhasKey e' "condition") = true := by
          simpa [goodEntry] using hg0
        rw [show checkStations j (JVal.obj e' :: rest)
            = if jhasKey e' "name" && jhasKey e' "id" && jhasKey e' "condition" then
                checkStations (j + 1) rest
              else Except.error ("action.stations[" ++ toString j
                ++ "] must have 'name', 'id', and 'condition' fields") from rfl]
        rw [if_pos hcond]
        exact ih (j + 1) i'
          (fun k hk => by simpa [List.getD] using hgood (k + 1) (Nat.succ_lt_succ hk))
          (by simpa using Nat.lt_of_succ_lt_succ (by simpa using hlen))
          (by simpa [List.getD] using hi)
      | null => simp [goodEntry] at hg0
      | bool b => simp [goodEntry] at hg0
      | int n => simp [goodEntry] at hg0
      | str s => simp [goodEntry] at hg0
      | arr l => simp [goodEntry] at hg0

/-- Claim C1: a `create_station` call whose `action` mapping lacks any of
`type`, `actor`, `prompt` raises a `ValueError` whose message names exactly
the missing fields (those required fields not present, in order), and the
result is an error, so no HTTP request is issued. -/
theorem create_station_missing_fields
    (name intent : String) (kvs : List (String × JVal))
    (context output : Option (List (String × JVal))) (slug : Option String)
    (version : String) (is_active : Bool)
    (h : required_action_fields.filter (fun f => ! jhasKey kvs f) ≠ []) :
    create_station name intent (JVal.obj kvs) context output slug version is_active
      = Except.error ("action must have fields: "
          ++ joinComma (required_action_fields.filter (fun f => ! jhasKey kvs f)))
    ∧ ∀ f, f ∈ required_action_fields.filter (fun f => ! jhasKey kvs f)
        ↔ (f ∈ required_action_fields ∧ jhasKey kvs f = false) := by
  refine ⟨?_, ?_⟩
  · show (if required_action_fields.filter (fun f => ! jhasKey kvs f) = [] then _ else _) = _
    rw [if_neg h]
  · intro f
    simp [List.mem_filter]

/-- Witness for C1 at a concrete input: `action` supplies only `type`, so
the error names `actor` and `prompt`. -/
theorem create_station_missing_fields_witness :
    create_station "n" "i" (JVal.obj [("type", JVal.str "gather")]) none none none "1.0" true
      = Except.error "action must have fields: actor, prompt" := by
  have h := create_station_missing_fields "n" "i" [("type", JVal.str "gather")]
    none none none "1.0" true (by decide)
  exact h.1.trans (by rfl)

/-- Claim C2: when `action` carries `type`, `actor` and `prompt`, the
`create_station` call succeeds (issues a request) exactly when `action.type`
is one of the strings "gather"/"process"/"execute" and `action.actor` is one
of "agent"/"human", compared by case-sensitive string equality; any other
value makes the call an error, i.e. a `ValueError` raised before any
network call. -/
theorem create_station_enum_iff
    (name intent : String) (kvs : List (String × JVal))
    (context output : Option (List (String × JVal))) (slug : Option String)
    (version : String) (is_active : Bool)
    (ht : jhasKey kvs "type" = true) (ha : jhasKey kvs "actor" = true)
    (hp : jhasKey kvs "prompt" = true) :
    isOkE (create_station name intent (JVal.obj kvs) context output slug version is_active)
        = true
      ↔ ((jget kvs "type" = JVal.str "gather" ∨ jget kvs "type" = JVal.str "process"
            ∨ jget kvs "type" = JVal.str "execute")
         ∧ (jget kvs "actor" = JVal.str "agent" ∨ jget kvs "actor" = JVal.str "human")) := by
  have hm : required_action_fields.filter (fun f => ! jhasKey kvs f) = [] := by
    simp [required_action_fields, List.filter, ht, ha, hp]
  rw [← memStr_station_types, ← memStr_actors]
  show isOkE (if required_action_fields.filter (fun f => ! jhasKey kvs f) = [] then _ else _)
      = true ↔ _
  rw [if_pos hm]
  cases hc1 : memStr (jget kvs "type") valid_station_types <;>
    cases hc2 : memStr (jget kvs "actor") valid_actors <;>
      simp [isOkE, hc1, hc2]

/-- Witness for C2 at concrete inputs: a valid enumeration pair succeeds. -/
theorem create_station_enum_iff_witness :
    isOkE (create_station "n" "i"
        (JVal.obj [("type", JVal.str "gather"), ("actor", JVal.str "agent"),
          ("prompt", JVal.str "p")]) none none none "1.0" true) = true := by
  exact (create_station_enum_iff "n" "i"
      [("type", JVal.str "gather"), ("actor", JVal.str "agent"), ("prompt", JVal.str "p")]
      none none none "1.0" true rfl rfl rfl).mpr
    ⟨Or.inl rfl, Or.inl rfl⟩

/-- Claim C7: on a client whose lazy HTTP client is not yet initialised, a
`request` call with an empty service endpoint identity or an empty bearer
secret raises the configuration `ValueError` (so no network call is
issued), and that message names both expected environment variable names;
with both credentials non-empty no configuration error is raised and the
request proceeds. -/
theorem request_credential_validation (c : JigRunnerClient) (m e : String)
    (p : Option (List (String × PVal))) (b : Option JVal)
    (hlazy : c._client = none) :
    ((c.supabase_url = "" ∨ c.service_role_key = "") →
        c.request m e p b = Except.error missing_env_message)
    ∧ ((c.supabase_url ≠ "" ∧ c.service_role_key ≠ "") →
        isOkE (c.request m e p b) = true)
    ∧ List.IsInfix "JIG_RUNNER_SUPABASE_URL".data missing_env_message.data
    ∧ List.IsInfix "JIG_RUNNER_SERVICE_ROLE_KEY".data missing_env_message.data := by
  refine ⟨?_, ?_, by decide, by decide⟩
  · intro hempty
    have hcond : (c.supabase_url = "" || c.service_role_key = "") = true := by
      rcases hempty with h | h <;> simp [h]
    simp [JigRunnerClient.request, JigRunnerClient._get_client, hlazy, hcond]
  · intro ⟨h1, h2⟩
    have hcond : (c.supabase_url = "" || c.service_role_key = "") = false := by
      simp [h1, h2]
    simp [JigRunnerClient.request, JigRunnerClient._get_client, hlazy, hcond, isOkE]

/-- Witness for C7 at a concrete input: a fresh client with an empty bearer
secret fails its first request with the configuration error. -/
theorem request_credential_validation_witness :
    (JigRunnerClient.init "https://jig-runner.vercel.app" "https://x.supabase.co" "").request
        "GET" "/api/stations" none none
      = Except.error missing_env_message := by
  exact (request_credential_validation
      (JigRunnerClient.init "https://jig-runner.vercel.app" "https://x.supabase.co" "")
      "GET" "/api/stations" none none rfl).1 (Or.inr rfl)

/-- Claim C9: constructing the client never raises — `init` is total, stores
the credential strings unchecked (even when empty) and performs no
validation, leaving `_client` unset; the credential check only happens
lazily inside `_get_client` on the first `request` call, which is where a
misconfigured client fails. -/
theorem init_does_not_validate (api su key : String) :
    (JigRunnerClient.init api su key)._client = none
    ∧ (JigRunnerClient.init api su key).api_url = api
    ∧ (JigRunnerClient.init api su key).supabase_url = su
    ∧ (JigRunnerClient.init api su key).service_role_key = key
    ∧ ((su = "" ∨ key = "") → ∀ m e p b,
        (JigRunnerClient.init api su key).request m e p b
          = Except.error missing_env_message) := by
  refine ⟨rfl, rfl, rfl, rfl, ?_⟩
  intro hempty m e p b
  exact (request_credential_validation (JigRunnerClient.init api su key) m e p b rfl).1 hempty

/-- Witness for C9 at a concrete input: a client built with both credentials
empty exists (its fields are just stored) and its first request raises the
configuration error. -/
theorem init_does_not_validate_witness :
    (JigRunnerClient.init "u" "" "")._client = none
    ∧ (JigRunnerClient.init "u" "" "").request "GET" "/api/workflows" none none
        = Except.error missing_env_message := by
  refine ⟨(init_does_not_validate "u" "" "").1, ?_⟩
  exact (init_does_not_validate "u" "" "").2.2.2.2 (Or.inl rfl) "GET" "/api/workflows" none none

/-- Claim C8: the query mapping of the `list_*` read-throughs contains
exactly the filters actually supplied — `limit` and `offset` are always
present; a boolean filter (`is_active`) appears exactly when its argument
is supplied, so `false` is sent; string filters (`action_type`, `type`,
`search`) appear exactly when supplied as non-empty strings; and no key
beyond the assembled ones occurs, so absent filters are omitted rather
than sent as null or empty values.  Stated for `list_stations` and
`list_connections`. -/
theorem list_params_exact
    (limit offset : Int) (is_active : Option Bool) (include_archived : Bool)
    (action_type search : Option String)
    (climit coffset : Int) (ctype : Option String) (cis_active : Option Bool)
    (csearch : Option String) :
    (list_stations limit offset is_active include_archived action_type search).params
        = some (list_stations_params limit offset is_active include_archived action_type search)
    ∧ ("limit", PVal.int limit)
        ∈ list_stations_params limit offset is_active include_archived action_type search
    ∧ ("offset", PVal.int offset)
        ∈ list_stations_params limit offset is_active include_archived action_type search
    ∧ (∀ v, ("is_active", v)
          ∈ list_stations_params limit offset is_active include_archived action_type search
        ↔ ∃ b, is_active = some b ∧ v = PVal.bool b)
    ∧ (∀ v, ("action_type", v)
          ∈ list_stations_params limit offset is_active include_archived action_type search
        ↔ ∃ s, action_type = some s ∧ s ≠ "" ∧ v = PVal.str s)
    ∧ (∀ v, ("search", v)
          ∈ list_stations_params limit offset is_active include_archived action_type search
        ↔ ∃ s, search = some s ∧ s ≠ "" ∧ v = PVal.str s)
    ∧ (∀ k v, (k, v)
          ∈ list_stations_params limit offset is_active include_archived action_type search
        → (k = "limit" ∨ k = "offset" ∨ k = "include_archived" ∨ k = "is_active"
            ∨ k = "action_type" ∨ k = "search"))
    ∧ (list_connections climit coffset ctype cis_active csearch).params
        = some (list_connections_params climit coffset ctype cis_active csearch)
    ∧ ("limit", PVal.int climit) ∈ list_connections_params climit coffset ctype cis_active csearch
    ∧ ("offset", PVal.int coffset) ∈ list_connections_params climit coffset ctype cis_active csearch
    ∧ (∀ v, ("type", v) ∈ list_connections_params climit coffset ctype cis_active csearch
        ↔ ∃ s, ctype = some s ∧ s ≠ "" ∧ v = PVal.str s)
    ∧ (∀ v, ("is_active", v) ∈ list_connections_params climit coffset ctype cis_active csearch
        ↔ ∃ b, cis_active = some b ∧ v = PVal.bool b)
    ∧ (∀ v, ("search", v) ∈ list_connections_params climit coffset ctype cis_active csearch
        ↔ ∃ s, csearch = some s ∧ s ≠ "" ∧ v = PVal.str s)
    ∧ (∀ k v, (k, v) ∈ list_connections_params climit coffset ctype cis_active csearch
        → (k = "limit" ∨ k = "offset" ∨ k = "type" ∨ k = "is_active" ∨ k = "search")) := by
  refine ⟨rfl, ?_, ?_, ?_, ?_, ?_, ?_, rfl, ?_, ?_, ?_, ?_, ?_, ?_⟩
  · simp [list_stations_params]
  · simp [list_stations_params]
  · intro v
    simp [list_stations_params, mem_optParamBool, mem_optParamStr]
  · intro v
    simp [list_stations_params, mem_optParamBool, mem_optParamStr]
  · intro v
    simp [list_stations_params, mem_optParamBool, mem_optParamStr]
  · intro k v hkv
    simp only [list_stations_params, List.mem_append, List.mem_cons,
      List.not_mem_nil, or_false, Prod.mk.injEq, mem_optParamBool, mem_optParamStr] at hkv
    tauto
  · simp [list_connections_params]
  · simp [list_connections_params]
  · intro v
    simp [list_connections_params, mem_optParamBool, mem_optParamStr]
  · intro v
    simp [list_connections_params, mem_optParamBool, mem_optParamStr]
  · intro v
    simp [list_connections_params, mem_optParamBool, mem_optParamStr]
  · intro k v hkv
    simp only [list_connections_params, List.mem_append, List.mem_cons,
      List.not_mem_nil, or_false, Prod.mk.injEq, mem_optParamBool, mem_optParamStr] at hkv
    tauto

/-- Counterexample to claim C3 as stated: `update_workflow` does NOT apply
the create-time non-emptiness check to a supplied `stations` — a patch
whose action carries an empty stations list passes validation and the
request is issued, where `create_workflow` would have raised. -/
theorem update_workflow_accepts_empty_stations :
    isOkE (update_workflow "w1" none none
        (some (JVal.obj [("stations", JVal.arr [])])) none none none) = true := rfl

/-- Claim C3 (amended): `update_workflow` applies the create-time checks to
each field present in the patch EXCEPT non-emptiness of `stations` — a
supplied `stations` must be a list (else the call errors), its entries must
pass the same per-entry check as create (else the call errors), a supplied
`config.trigger` or `config.type` must lie in its enumeration (else the
call errors), but an empty supplied stations list is accepted. -/
theorem update_workflow_patch_checks :
    (∀ (id : String) (n i s : Option String)
        (c o : Option (List (String × JVal))) (kvs : List (String × JVal)) (v : JVal),
      jlookup kvs "stations" = some v → (∀ xs, v ≠ JVal.arr xs) →
      isOkE (update_workflow id n i (some (JVal.obj kvs)) s c o) = false)
    ∧ (∀ (id : String) (n i s : Option String)
        (c o : Option (List (String × JVal))) (kvs : List (String × JVal))
        (xs : List JVal) (msg : String),
      jlookup kvs "stations" = some (JVal.arr xs) →
      checkStations 0 xs = Except.error msg →
      isOkE (update_workflow id n i (some (JVal.obj kvs)) s c o) = false)
    ∧ (∀ (id : String) (n i s : Option String)
        (c o : Option (List (String × JVal))) (kvs cc : List (String × JVal)) (v : JVal),
      jlookup kvs "config" = some (JVal.obj cc) →
      jlookup cc "trigger" = some v → memStr v valid_triggers = false →
      isOkE (update_workflow id n i (some (JVal.obj kvs)) s c o) = false)
    ∧ (∀ (id : String) (n i s : Option String)
        (c o : Option (List (String × JVal))) (kvs cc : List (String × JVal)) (v : JVal),
      jlookup kvs "config" = some (JVal.obj cc) →
      jlookup cc "type" = some v → memStr v valid_workflow_types = false →
      isOkE (update_workflow id n i (some (JVal.obj kvs)) s c o) = false)
    ∧ (∀ (id : String) (n i s : Option String) (c o : Option (List (String × JVal))),
      isOkE (update_workflow id n i (some (JVal.obj [("stations", JVal.arr [])])) s c o)
        = true) := by
  refine ⟨?_, ?_, ?_, ?_, ?_⟩
  · intro id n i s c o kvs v hs hv
    cases hcfg : check_update_wf_config kvs with
    | error e => simp [update_workflow, hcfg, isOkE]
    | ok u =>
      have hst : check_update_wf_stations kvs
          = Except.error "action.stations must be an array" := by
        cases v with
        | arr xs => exact absurd rfl (hv xs)
        | null => simp [check_update_wf_stations, hs]
        | bool b => simp [check_update_wf_stations, hs]
        | int n => simp [check_update_wf_stations, hs]
        | str t => simp [check_update_wf_stations, hs]
        | obj d => simp [check_update_wf_stations, hs]
      simp [update_workflow, hcfg, hst, isOkE]
  · intro id n i s c o kvs xs msg hs hchk
    cases hcfg : check_update_wf_config kvs with
    | error e => simp [update_workflow, hcfg, isOkE]
    | ok u =>
      have hst : check_update_wf_stations kvs = Except.error msg := by
        simp [check_update_wf_stations, hs, hchk]
      simp [update_workflow, hcfg, hst, isOkE]
  · intro id n i s c o kvs cc v hc htr hmem
    have hcfg : check_update_wf_config kvs
        = Except.error ("action.config.trigger must be one of: " ++ joinComma valid_triggers) := by
      simp [check_update_wf_config, hc, check_enum_field, htr, hmem]
    simp [update_workflow, hcfg, isOkE]
  · intro id n i s c o kvs cc v hc hty hmem
    cases htr : check_enum_field cc "trigger" valid_triggers
        ("action.config.trigger must be one of: " ++ joinComma valid_triggers) with
    | error e =>
      have hcfg : check_update_wf_config kvs = Except.error e := by
        simp [check_update_wf_config, hc, htr]
      simp [update_workflow, hcfg, isOkE]
    | ok u =>
      have hty2 : check_enum_field cc "type" valid_workflow_types
          ("action.config.type must be one of: " ++ joinComma valid_workflow_types)
          = Except.error ("action.config.type must be one of: "
              ++ joinComma valid_workflow_types) := by
        simp [check_enum_field, hty, hmem]
      have hcfg : check_update_wf_config kvs
          = Except.error ("action.config.type must be one of: "
              ++ joinComma valid_workflow_types) := by
        simp [check_update_wf_config, hc, htr, hty2]
      simp [update_workflow, hcfg, isOkE]
  · intro id n i s c o
    simp [update_workflow, check_update_wf_config, check_update_wf_stations,
      jlookup, checkStations, isOkE]

/-- Witness for the amended C3 at a concrete input: a patch whose stations
entry is not a mapping is rejected. -/
theorem update_workflow_patch_checks_witness :
    isOkE (update_workflow "w1" none none
        (some (JVal.obj [("stations", JVal.arr [JVal.str "x"])])) none none none) = false := by
  exact update_workflow_patch_checks.2.1 "w1" none none none none none
    [("stations", JVal.arr [JVal.str "x"])] [JVal.str "x"]
    "action.stations[0] must be a dictionary" rfl rfl

/-- Counterexample to claim C4 as stated: a `create_workflow` call whose
action carries an empty `stations` list but no `config` key raises the
presence error for config/stations, whose message does not say anything
about non-emptiness (it contains no "non-empty" substring), so the quoted
message guarantee does not hold for every such call. -/
theorem create_workflow_empty_stations_counterexample :
    create_workflow "n" "i" (JVal.obj [("stations", JVal.arr [])]) none "1.0" none none
      = Except.error "action must have 'config' and 'stations' fields"
    ∧ ¬ List.IsInfix "non-empty".data
        "action must have 'config' and 'stations' fields".data := by
  exact ⟨rfl, by decide⟩

/-- Claim C4 (amended): a `create_workflow` call whose action carries a
valid `config` (dict with in-enumeration `trigger` and `type`) and whose
`stations` is present but an empty list — or not a list at all — raises
the `ValueError` "action.stations must be a non-empty array", and no
request is issued; when the config part is missing or invalid, the call
still fails before any network call, but with the config error message. -/
theorem create_workflow_nonempty_stations
    (name intent : String) (kvs c : List (String × JVal)) (v : JVal)
    (slug : Option String) (version : String)
    (context output : Option (List (String × JVal)))
    (hc : jlookup kvs "config" = some (JVal.obj c))
    (htrig : memStr (jget c "trigger") valid_triggers = true)
    (hty : memStr (jget c "type") valid_workflow_types = true)
    (hs : jlookup kvs "stations" = some v)
    (hbad : v = JVal.arr [] ∨ ∀ xs, v ≠ JVal.arr xs) :
    create_workflow name intent (JVal.obj kvs) slug version context output
      = Except.error "action.stations must be a non-empty array" := by
  have hk1 : jhasKey kvs "config" = true := by simp [jhasKey, hc]
  have hk2 : jhasKey kvs "stations" = true := by simp [jhasKey, hs]
  have hg1 : jget kvs "config" = JVal.obj c := by simp [jget, hc]
  have hg2 : jget kvs "stations" = v := by simp [jget, hs]
  have htp : jhasKey c "trigger" = true := memStr_present c "trigger" valid_triggers htrig
  have hyp : jhasKey c "type" = true := memStr_present c "type" valid_workflow_types hty
  rcases hbad with hemp | hnarr
  · subst hemp
    simp [create_workflow, hk1, hk2, hg1, hg2, htp, hyp, htrig, hty]
  · cases v with
    | arr xs => exact absurd rfl (hnarr xs)
    | null => simp [create_workflow, hk1, hk2, hg1, hg2, htp, hyp, htrig, hty]
    | bool b => simp [create_workflow, hk1, hk2, hg1, hg2, htp, hyp, htrig, hty]
    | int n => simp [create_workflow, hk1, hk2, hg1, hg2, htp, hyp, htrig, hty]
    | str t => simp [create_workflow, hk1, hk2, hg1, hg2, htp, hyp, htrig, hty]
    | obj d => simp [create_workflow, hk1, hk2, hg1, hg2, htp, hyp, htrig, hty]

/-- Witness for the amended C4 at a concrete input: valid config plus an
empty stations list yields exactly the non-empty error. -/
theorem create_workflow_nonempty_stations_witness :
    create_workflow "n" "i"
        (JVal.obj [("config", JVal.obj [("trigger", JVal.str "manual"),
            ("type", JVal.str "linear")]), ("stations", JVal.arr [])])
        none "1.0" none none
      = Except.error "action.stations must be a non-empty array" := by
  exact create_workflow_nonempty_stations "n" "i"
    [("config", JVal.obj [("trigger", JVal.str "manual"), ("type", JVal.str "linear")]),
     ("stations", JVal.arr [])]
    [("trigger", JVal.str "manual"), ("type", JVal.str "linear")]
    (JVal.arr []) none "1.0" none none rfl rfl rfl rfl (Or.inl rfl)

/-- Counterexample to claim C5 as stated: a `create_workflow` call whose
stations list has a mapping entry missing all required keys, but whose
action carries no `config`, raises the config/stations presence error —
a message that reports no index at all (it contains no digit "0", the
index of the offending entry). -/
theorem create_workflow_station_index_counterexample :
    create_workflow "n" "i" (JVal.obj [("stations", JVal.arr [JVal.obj []])])
        none "1.0" none none
      = Except.error "action must have 'config' and 'stations' fields"
    ∧ ¬ List.IsInfix "0".data
        "action must have 'config' and 'stations' fields".data := by
  exact ⟨rfl, by decide⟩

/-- Claim C5 (amended): a `create_workflow` call with a valid `config`,
whose non-empty `stations` list has all entries before offset `i` passing
the per-entry check and whose entry at offset `i` is a mapping missing one
of `name`/`id`/`condition`, raises the `ValueError` reporting the
zero-based index `i` of that first offending entry, and no request is
issued; when `config` is missing or invalid the call still fails before
any network call, but with the config error message instead. -/
theorem create_workflow_station_entry_index
    (name intent : String) (kvs c : List (String × JVal)) (xs : List JVal)
    (slug : Option String) (version : String)
    (context output : Option (List (String × JVal)))
    (i : Nat) (e : List (String × JVal))
    (hc : jlookup kvs "config" = some (JVal.obj c))
    (htrig : memStr (jget c "trigger") valid_triggers = true)
    (hty : memStr (jget c "type") valid_workflow_types = true)
    (hs : jlookup kvs "stations" = some (JVal.arr xs))
    (hgood : ∀ k, k < i → goodEntry (xs.getD k JVal.null) = true)
    (hlen : i < xs.length)
    (hi : xs.getD i JVal.null = JVal.obj e)
    (hbad : (jhasKey e "name" && jhasKey e "id" && jhasKey e "condition") = false) :
    create_workflow name intent (JVal.obj kvs) slug version context output
      = Except.error ("action.stations[" ++ toString i
          ++ "] must have 'name', 'id', and 'condition' fields") := by
  have hk1 : jhasKey kvs "config" = true := by simp [jhasKey, hc]
  have hk2 : jhasKey kvs "stations" = true := by simp [jhasKey, hs]
  have hg1 : jget kvs "config" = JVal.obj c := by simp [jget, hc]
  have hg2 : jget kvs "stations" = JVal.arr xs := by simp [jget, hs]
  have htp : jhasKey c "trigger" = true := memStr_present c "trigger" valid_triggers htrig
  have hyp : jhasKey c "type" = true := memStr_present c "type" valid_workflow_types hty
  have hne : xs.isEmpty = false := by
    cases xs with
    | nil => simp at hlen
    | cons y ys => rfl
  have hcs := checkStations_error_at xs 0 i e hgood hlen hi hbad
  rw [Nat.zero_add] at hcs
  simp [create_workflow, hk1, hk2, hg1, hg2, htp, hyp, htrig, hty, hne, hcs]

/-- Witness for the amended C5 at a concrete input: the second entry
(index 1) is the first one missing a key, and the message reports it. -/
theorem create_workflow_station_entry_index_witness :
    create_workflow "n" "i"
        (JVal.obj [("config", JVal.obj [("trigger", JVal.str "manual"),
            ("type", JVal.str "linear")]),
          ("stations", JVal.arr
            [JVal.obj [("name", JVal.str "a"), ("id", JVal.int 1), ("condition", JVal.null)],
             JVal.obj [("name", JVal.str "b")]])])
        none "1.0" none none
      = Except.error "action.stations[1] must have 'name', 'id', and 'condition' fields" := by
  have h := create_workflow_station_entry_index "n" "i"
    [("config", JVal.obj [("trigger", JVal.str "manual"), ("type", JVal.str "linear")]),
     ("stations", JVal.arr
       [JVal.obj [("name", JVal.str "a"), ("id", JVal.int 1), ("condition", JVal.null)],
        JVal.obj [("name", JVal.str "b")]])]
    [("trigger", JVal.str "manual"), ("type", JVal.str "linear")]
    [JVal.obj [("name", JVal.str "a"), ("id", JVal.int 1), ("condition", JVal.null)],
     JVal.obj [("name", JVal.str "b")]]
    none "1.0" none none 1 [("name", JVal.str "b")]
    rfl rfl rfl rfl (by decide) (by decide) rfl rfl
  exact h.trans (by rfl)

/-- Claim C6: for `update_station` and `update_workflow`, a call supplying
no `action` raises no validation error (the sparse patch is sent); a
supplied action whose `type` or `actor` (station), or whose config
`trigger` or `type` (workflow), lies outside its enumeration raises a
validation error whatever the other supplied fields are; and sub-fields
absent from the patch are never required (an action without them passes). -/
theorem update_conditional_validation :
    (∀ (id : String) (n i : Option String) (c o : Option (List (String × JVal)))
        (s : Option String) (ia ar : Option Bool),
      isOkE (update_station id n i none c o s ia ar) = true)
    ∧ (∀ (id : String) (n i s : Option String) (c o : Option (List (String × JVal))),
      isOkE (update_workflow id n i none s c o) = true)
    ∧ (∀ (id : String) (n i : Option String) (c o : Option (List (String × JVal)))
        (s : Option String) (ia ar : Option Bool) (kvs : List (String × JVal)) (v : JVal),
      jlookup kvs "type" = some v → memStr v valid_station_types = false →
      update_station id n i (some (JVal.obj kvs)) c o s ia ar
        = Except.error ("action.type must be one of: " ++ joinComma valid_station_types))
    ∧ (∀ (id : String) (n i : Option String) (c o : Option (List (String × JVal)))
        (s : Option String) (ia ar : Option Bool) (kvs : List (String × JVal)) (v : JVal),
      jlookup kvs "actor" = some v → memStr v valid_actors = false →
      isOkE (update_station id n i (some (JVal.obj kvs)) c o s ia ar) = false)
    ∧ (∀ (id : String) (n i s : Option String) (c o : Option (List (String × JVal)))
        (kvs cc : List (String × JVal)) (v : JVal),
      jlookup kvs "config" = some (JVal.obj cc) →
      jlookup cc "trigger" = some v → memStr v valid_triggers = false →
      update_workflow id n i (some (JVal.obj kvs)) s c o
        = Except.error ("action.config.trigger must be one of: " ++ joinComma valid_triggers))
    ∧ (∀ (id : String) (n i s : Option String) (c o : Option (List (String × JVal)))
        (kvs cc : List (String × JVal)) (v : JVal),
      jlookup kvs "config" = some (JVal.obj cc) →
      jlookup cc "type" = some v → memStr v valid_workflow_types = false →
      isOkE (update_workflow id n i (some (JVal.obj kvs)) s c o) = false)
    ∧ (∀ (id : String) (n i : Option String) (c o : Option (List (String × JVal)))
        (s : Option String) (ia ar : Option Bool) (kvs : List (String × JVal)),
      jlookup kvs "type" = none → jlookup kvs "actor" = none →
      isOkE (update_station id n i (some (JVal.obj kvs)) c o s ia ar) = true)
    ∧ (∀ (id : String) (n i s : Option String) (c o : Option (List (String × JVal)))
        (kvs : List (String × JVal)),
      jlookup kvs "config" = none → jlookup kvs "stations" = none →
      isOkE (update_workflow id n i (some (JVal.obj kvs)) s c o) = true) := by
  refine ⟨?_, ?_, ?_, ?_, ?_, ?_, ?_, ?_⟩
  · intro id n i c o s ia ar
    rfl
  · intro id n i s c o
    rfl
  · intro id n i c o s ia ar kvs v hl hmem
    have hact : check_update_station_action kvs
        = Except.error ("action.type must be one of: " ++ joinComma valid_station_types) := by
      simp [check_update_station_action, check_enum_field, hl, hmem]
    simp [update_station, hact]
  · intro id n i c o s ia ar kvs v hl hmem
    cases hty : check_enum_field kvs "type" valid_station_types
        ("action.type must be one of: " ++ joinComma valid_station_types) with
    | error e =>
      have hact : check_update_station_action kvs = Except.error e := by
        simp [check_update_station_action, hty]
      simp [update_station, hact, isOkE]
    | ok u =>
      have hac : check_enum_field kvs "actor" valid_actors
          ("action.actor must be one of: " ++ joinComma valid_actors)
          = Except.error ("action.actor must be one of: " ++ joinComma valid_actors) := by
        simp [check_enum_field, hl, hmem]
      have hact : check_update_station_action kvs
          = Except.error ("action.actor must be one of: " ++ joinComma valid_actors) := by
        simp [check_update_station_action, hty, hac]
      simp [update_station, hact, isOkE]
  · intro id n i s c o kvs cc v hc htr hmem
    have hcfg : check_update_wf_config kvs
        = Except.error ("action.config.trigger must be one of: " ++ joinComma valid_triggers) := by
      simp [check_update_wf_config, hc, check_enum_field, htr, hmem]
    simp [update_workflow, hcfg]
  · intro id n i s c o kvs cc v hc hty hmem
    cases htr : check_enum_field cc "trigger" valid_triggers
        ("action.config.trigger must be one of: " ++ joinComma valid_triggers) with
    | error e =>
      have hcfg : check_update_wf_config kvs = Except.error e := by
        simp [check_update_wf_config, hc, htr]
      simp [update_workflow, hcfg, isOkE]
    | ok u =>
      have hty2 : check_enum_field cc "type" valid_workflow_types
          ("action.config.type must be one of: " ++ joinComma valid_workflow_types)
          = Except.error ("action.config.type must be one of: "
              ++ joinComma valid_workflow_types) := by
        simp [check_enum_field, hty, hmem]
      have hcfg : check_update_wf_config kvs
          = Except.error ("action.config.type must be one of: "
              ++ joinComma valid_workflow_types) := by
        simp [check_update_wf_config, hc, htr, hty2]
      simp [update_workflow, hcfg, isOkE]
  · intro id n i c o s ia ar kvs hlt hla
    have hact : check_update_station_action kvs = Except.ok () := by
      simp [check_update_station_action, check_enum_field, hlt, hla]
    simp [update_station, hact, isOkE]
  · intro id n i s c o kvs hlc hls
    have hcfg : check_update_wf_config kvs = Except.ok () := by
      simp [check_update_wf_config, hlc]
    have hst : check_update_wf_stations kvs = Except.ok () := by
      simp [check_update_wf_stations, hls]
    simp [update_workflow, hcfg, hst, isOkE]

/-- Witness for C6 at a concrete input: a patch whose action carries an
out-of-enumeration `type`, all other fields well-formed, is rejected. -/
theorem update_conditional_validation_witness :
    update_station "s1" (some "New name") none
        (some (JVal.obj [("type", JVal.str "bogus"), ("prompt", JVal.str "p")]))
        none none none none none
      = Except.error "action.type must be one of: gather, process, execute" := by
  have h := update_conditional_validation.2.2.1 "s1" (some "New name") none none none none
    none none [("type", JVal.str "bogus"), ("prompt", JVal.str "p")]
    (JVal.str "bogus") rfl rfl
  exact h.trans (by rfl)

/-- A key/value pair sits in an `optTruthyStr` segment exactly when the
optional string was supplied non-empty (truthy). -/
theorem mem_optTruthyStr (k k' : String) (v : JVal) (o : Option String) :
    (k', v) ∈ optTruthyStr k o ↔ (k' = k ∧ ∃ s, o = some s ∧ s ≠ "" ∧ v = JVal.str s) := by
  cases o with
  | none => simp [optTruthyStr]
  | some s =>
    by_cases hs : s = "" <;> simp [optTruthyStr, hs]

/-- A key/value pair sits in an `optTruthyObj` segment exactly when the
optional dict was supplied non-empty (truthy). -/
theorem mem_optTruthyObj (k k' : String) (v : JVal)
    (o : Option (List (String × JVal))) :
    (k', v) ∈ optTruthyObj k o
      ↔ (k' = k ∧ ∃ d, o = some d ∧ d ≠ [] ∧ v = JVal.obj d) := by
  cases o with
  | none => simp [optTruthyObj]
  | some d =>
    cases d with
    | nil => simp [optTruthyObj]
    | cons x rest => simp [optTruthyObj]

/-- Claim C10: in the bodies built by `create_station` and
`create_workflow`, the optional `slug`, `context` and `output` arguments
appear exactly when truthy — a supplied empty-string slug or empty-dict
context/output is omitted, and the resulting body is identical to the one
built had the argument not been supplied at all; moreover, under valid
action input, the create tools do issue their POST request with exactly
these bodies. -/
theorem create_truthy_optional_fields :
    (∀ (version name intent : String) (action : JVal) (ia : Bool)
        (slug : Option String) (ctx out : Option (List (String × JVal))) (v : JVal),
      ("slug", v) ∈ station_body version name intent action ia slug ctx out
        ↔ ∃ s, slug = some s ∧ s ≠ "" ∧ v = JVal.str s)
    ∧ (∀ (version name intent : String) (action : JVal) (ia : Bool)
        (slug : Option String) (ctx out : Option (List (String × JVal))) (v : JVal),
      ("context", v) ∈ station_body version name intent action ia slug ctx out
        ↔ ∃ d, ctx = some d ∧ d ≠ [] ∧ v = JVal.obj d)
    ∧ (∀ (version name intent : String) (action : JVal) (ia : Bool)
        (slug : Option String) (ctx out : Option (List (String × JVal))) (v : JVal),
      ("output", v) ∈ station_body version name intent action ia slug ctx out
        ↔ ∃ d, out = some d ∧ d ≠ [] ∧ v = JVal.obj d)
    ∧ (∀ (version name intent : String) (action : JVal) (ia : Bool)
        (ctx out : Option (List (String × JVal))),
      station_body version name intent action ia (some "") ctx out
        = station_body version name intent action ia none ctx out)
    ∧ (∀ (version name intent : String) (action : JVal) (ia : Bool)
        (slug : Option String) (out : Option (List (String × JVal))),
      station_body version name intent action ia slug (some []) out
        = station_body version name intent action ia slug none out)
    ∧ (∀ (version name intent : String) (action : JVal) (ia : Bool)
        (slug : Option String) (ctx : Option (List (String × JVal))),
      station_body version name intent action ia slug ctx (some [])
        = station_body version name intent action ia slug ctx none)
    ∧ (∀ (version name intent : String) (action : JVal)
        (slug : Option String) (ctx out : Option (List (String × JVal))) (v : JVal),
      ("slug", v) ∈ workflow_body version name intent action slug ctx out
        ↔ ∃ s, slug = some s ∧ s ≠ "" ∧ v = JVal.str s)
    ∧ (∀ (version name intent : String) (action : JVal)
        (slug : Option String) (ctx out : Option (List (String × JVal))) (v : JVal),
      ("context", v) ∈ workflow_body version name intent action slug ctx out
        ↔ ∃ d, ctx = some d ∧ d ≠ [] ∧ v = JVal.obj d)
    ∧ (∀ (version name intent : String) (action : JVal)
        (slug : Option String) (ctx out : Option (List (String × JVal))) (v : JVal),
      ("output", v) ∈ workflow_body version name intent action slug ctx out
        ↔ ∃ d, out = some d ∧ d ≠ [] ∧ v = JVal.obj d)
    ∧ (∀ (version name intent : String) (action : JVal)
        (ctx out : Option (List (String × JVal))),
      workflow_body version name intent action (some "") ctx out
        = workflow_body version name intent action none ctx out)
    ∧ (∀ (version name intent : String) (action : JVal)
        (slug : Option String) (out : Option (List (String × JVal))),
      workflow_body version name intent action slug (some []) out
        = workflow_body version name intent action slug none out)
    ∧ (∀ (version name intent : String) (action : JVal)
        (slug : Option String) (ctx : Option (List (String × JVal))),
      workflow_body version name intent action slug ctx (some [])
        = workflow_body version name intent action slug ctx none)
    ∧ (∀ (name intent version : String) (ia : Bool) (slug : Option String)
        (ctx out : Option (List (String × JVal))) (kvs : List (String × JVal)),
      jhasKey kvs "type" = true → jhasKey kvs "actor" = true →
      jhasKey kvs "prompt" = true →
      memStr (jget kvs "type") valid_station_types = true →
      memStr (jget kvs "actor") valid_actors = true →
      create_station name intent (JVal.obj kvs) ctx out slug version ia
        = Except.ok ⟨"POST", "/api/stations", none,
            some (JVal.obj (station_body version name intent (JVal.obj kvs) ia
              slug ctx out))⟩)
    ∧ (∀ (name intent version : String) (slug : Option String)
        (ctx out : Option (List (String × JVal))) (kvs c : List (String × JVal))
        (xs : List JVal),
      jlookup kvs "config" = some (JVal.obj c) →
      memStr (jget c "trigger") valid_triggers = true →
      memStr (jget c "type") valid_workflow_types = true →
      jlookup kvs "stations" = some (JVal.arr xs) → xs ≠ [] →
      checkStations 0 xs = Except.ok () →
      create_workflow name intent (JVal.obj kvs) slug version ctx out
        = Except.ok ⟨"POST", "/api/workflows", none,
            some (JVal.obj (workflow_body version name intent (JVal.obj kvs)
              slug ctx out))⟩) := by
  refine ⟨?_, ?_, ?_, ?_, ?_, ?_, ?_, ?_, ?_, ?_, ?_, ?_, ?_, ?_⟩
  · intro version name intent action ia slug ctx out v
    simp [station_body, mem_optTruthyStr, mem_optTruthyObj]
  · intro version name intent action ia slug ctx out v
    simp [station_body, mem_optTruthyStr, mem_optTruthyObj]
  · intro version name intent action ia slug ctx out v
    simp [station_body, mem_optTruthyStr, mem_optTruthyObj]
  · intro version name intent action ia ctx out
    rfl
  · intro version name intent action ia slug out
    rfl
  · intro version name intent action ia slug ctx
    rfl
  · intro version name intent action slug ctx out v
    simp [workflow_body, mem_optTruthyStr, mem_optTruthyObj]
  · intro version name intent action slug ctx out v
    simp [workflow_body, mem_optTruthyStr, mem_optTruthyObj]
  · intro version name intent action slug ctx out v
    simp [workflow_body, mem_optTruthyStr, mem_optTruthyObj]
  · intro version name intent action ctx out
    rfl
  · intro version name intent action slug out
    rfl
  · intro version name intent action slug ctx
    rfl
  · intro name intent version ia slug ctx out kvs ht ha hp htv hav
    have hm : required_action_fields.filter (fun f => ! jhasKey kvs f) = [] := by
      simp [required_action_fields, List.filter, ht, ha, hp]
    simp [create_station, hm, htv, hav]
  · intro name intent version slug ctx out kvs c xs hc htrig hty hs hne hcs
    have hk1 : jhasKey kvs "config" = true := by simp [jhasKey, hc]
    have hk2 : jhasKey kvs "stations" = true := by simp [jhasKey, hs]
    have hg1 : jget kvs "config" = JVal.obj c := by simp [jget, hc]
    have hg2 : jget kvs "stations" = JVal.arr xs := by simp [jget, hs]
    have htp : jhasKey c "trigger" = true := memStr_present c "trigger" valid_triggers htrig
    have hyp : jhasKey c "type" = true := memStr_present c "type" valid_workflow_types hty
    have hne2 : xs.isEmpty = false := by
      cases xs with
      | nil => exact absurd rfl hne
      | cons y ys => rfl
    simp [create_workflow, hk1, hk2, hg1, hg2, htp, hyp, htrig, hty, hne2, hcs]

/-- Witness for C10 at a concrete input: an explicitly supplied empty
slug and empty context dict are omitted — the issued body is the same as
with no slug and no context supplied. -/
theorem create_truthy_optional_fields_witness :
    create_station "n" "i"
        (JVal.obj [("type", JVal.str "gather"), ("actor", JVal.str "agent"),
          ("prompt", JVal.str "p")])
        (some []) none (some "") "1.0" true
      = Except.ok ⟨"POST", "/api/stations", none,
          some (JVal.obj (station_body "1.0" "n" "i"
            (JVal.obj [("type", JVal.str "gather"), ("actor", JVal.str "agent"),
              ("prompt", JVal.str "p")]) true none none none))⟩ := by
  have h := create_truthy_optional_fields.2.2.2.2.2.2.2.2.2.2.2.2.1
    "n" "i" "1.0" true (some "") (some []) none
    [("type", JVal.str "gather"), ("actor", JVal.str "agent"), ("prompt", JVal.str "p")]
    rfl rfl rfl rfl rfl
  exact h.trans (by rfl)

/-- Witness for C8 at a concrete input: an explicitly supplied `false`
boolean filter is present in the assembled parameters. -/
theorem list_params_exact_witness :
    ("is_active", PVal.bool false) ∈ list_stations_params 50 0 (some false) false none none := by
  exact ((list_params_exact 50 0 (some false) false none none 50 0 none none
      none).2.2.2.1 (PVal.bool false)).mpr ⟨false, rfl, rfl⟩
